import Mathlib

/-
Verification of the muse-chat-app backend access-control core against its
specification. The TypeScript controllers and middleware are shallowly
embedded as pure Lean functions: the document store is a list of records
passed in and returned explicitly, external collaborators (bcrypt compare,
the JWT codec, the asset host) are function parameters, and every HTTP
response is a status code paired with an explicit body value.
-/

namespace Muse

/-- Mongo document IDs: the source always compares them via toString, so a
plain string models them faithfully. -/
abbrev Id := String

/-- A flat JSON object body: field names paired with string-rendered values.
Every controller error body is the single field message. -/
abbrev JsonObj := List (String × String)

/-- A stored User document (user.model.ts): password holds the bcrypt hash. -/
structure User where
  _id : Id
  name : String
  email : String
  password : String
  profilePic : String
  aboutMe : String
deriving DecidableEq

/-- A stored Chat document (chat.model.ts). -/
structure Chat where
  _id : Id
  name : String
  isGroup : Bool
  members : List Id
deriving DecidableEq

/-- A stored Message document (message.model.ts): text and image are both
optional schema fields. -/
structure Message where
  _id : Id
  senderId : Id
  chatId : Id
  text : Option String
  image : Option String
deriving DecidableEq

/-- JavaScript falsiness of an optional string value: undefined/null (none)
and the empty string are falsy. -/
def falsyStr : Option String → Bool
  | none => true
  | some s => s = ""

/-- The JS trim method, modelled executably: whitespace is dropped from both
ends of the character list. -/
def jsTrim (s : String) : String :=
  ⟨((s.data.dropWhile Char.isWhitespace).reverse.dropWhile Char.isWhitespace).reverse⟩

/-- User.findById: first user whose _id matches. -/
def findById (users : List User) (i : Id) : Option User :=
  users.find? (fun u => u._id == i)

/-- User.findOne with an email filter: first user whose email matches. -/
def findByEmail (users : List User) (email : String) : Option User :=
  users.find? (fun u => u.email == email)

/-- The projection mongoose applies for select with the bare field name
password: an inclusive projection, so the returned document carries only
_id and password. (The middleware comment says the intent was to exclude
the password, but select without a minus sign includes only it.) -/
structure AuthUser where
  _id : Id
  password : String
deriving DecidableEq

/-- Applying the select projection to a found user document. -/
def selectPassword (u : User) : AuthUser :=
  { _id := u._id, password := u.password }

/-- Outcome of the protectRoute middleware: either it halts with exactly one
error response, or it attaches the projected user and calls next. -/
inductive MwResult where
  | halt (status : Nat) (body : JsonObj)
  | next (user : AuthUser)
deriving DecidableEq

/-- protectRoute (auth.middleware.ts). The token is the jwt cookie (absent
or a string; the source tests JS falsiness, so the empty string counts as no
token). jwt.verify is the synchronous jsonwebtoken call: on an invalid or
expired token it THROWS, the exception reaches the catch-all, and the
response is 500 Internal Server Error — modelled here as verify returning
none. The source line `if (!decodedToken) return 401 Invalid Token` tests
the falsiness of a successfully returned payload object, which is always
truthy, so that branch is unreachable and has no counterpart in the model. -/
def protectRoute (users : List User) (verify : String → Option Id)
    (token : Option String) : MwResult :=
  match token with
  | none => .halt 401 [("message", "Unauthorised - No Token Provided")]
  | some t =>
    if t = "" then .halt 401 [("message", "Unauthorised - No Token Provided")]
    else
      match verify t with
      | none => .halt 500 [("message", "Internal Server Error")]
      | some userId =>
        match findById users userId with
        | none => .halt 404 [("message", "User not found")]
        | some u => .next (selectPassword u)

/-- res.json(req.user): serializing the document protectRoute attached. After
the select projection it has exactly the fields _id and password. -/
def serializeAuthUser (u : AuthUser) : JsonObj :=
  [("_id", u._id), ("password", u.password)]

/-- checkAuth (auth.controller.ts): replies 200 with req.user serialized. -/
def checkAuth (u : AuthUser) : Nat × JsonObj :=
  (200, serializeAuthUser u)

/-- signup (auth.controller.ts). hash is the black-box bcrypt derivation,
freshId the id mongoose mints for the new document. Returns the response and
the updated user collection. -/
def signup (users : List User) (hash : String → String) (freshId : Id)
    (name email password : Option String) : (Nat × JsonObj) × List User :=
  if falsyStr name || falsyStr email || falsyStr password then
    ((400, [("message", "All fields are required")]), users)
  else
    let nm := name.getD ""
    let em := email.getD ""
    let pw := password.getD ""
    if pw.length < 6 then
      ((400, [("message", "Password must be at least 6 characters long")]), users)
    else if (findByEmail users em).isSome then
      ((400, [("message", "Email already exists")]), users)
    else
      let newUser : User :=
        { _id := freshId, name := nm, email := em, password := hash pw
          profilePic := "", aboutMe := "" }
      (((201, [("_id", newUser._id), ("name", newUser.name),
               ("email", newUser.email), ("profilePic", newUser.profilePic),
               ("aboutMe", newUser.aboutMe)])), users ++ [newUser])

/-- login (auth.controller.ts). cmp is the black-box bcrypt comparison of a
candidate password against a stored hash. -/
def login (users : List User) (cmp : String → String → Bool)
    (email password : String) : Nat × JsonObj :=
  match findByEmail users email with
  | none => (400, [("message", "Invalid credentials")])
  | some user =>
    if !(cmp password user.password) then
      (400, [("message", "Invalid credentials")])
    else
      (200, [("_id", user._id), ("name", user.name), ("email", user.email),
             ("profilePic", user.profilePic), ("aboutMe", user.aboutMe)])

/-- Chat.findById: first chat whose _id matches. -/
def findChat (chats : List Chat) (i : Id) : Option Chat :=
  chats.find? (fun c => c._id == i)

/-- Message.findById: first message whose _id matches. -/
def findMessage (msgs : List Message) (i : Id) : Option Message :=
  msgs.find? (fun m => m._id == i)

/-- Persisting a modified chat document (save or findByIdAndUpdate): the
stored document with that _id is replaced. -/
def updateChat (chats : List Chat) (c : Chat) : List Chat :=
  chats.map (fun x => if x._id == c._id then c else x)

/-- Persisting a modified message document (message.save()). -/
def updateMessage (msgs : List Message) (m : Message) : List Message :=
  msgs.map (fun x => if x._id == m._id then m else x)

/-- The JS Set constructor applied to a list: removes duplicates, keeping the
first occurrence of each element in order. seen accumulates the elements
already emitted. -/
def jsSetDedupAux : List Id → List Id → List Id
  | _, [] => []
  | seen, x :: xs =>
    if x ∈ seen then jsSetDedupAux seen xs
    else x :: jsSetDedupAux (x :: seen) xs

/-- Array.from(new Set(l)). -/
def jsSetDedup (l : List Id) : List Id :=
  jsSetDedupAux [] l

/-- The Mongo addToSet update with an each modifier: appends every id not
already present, in the order supplied, leaving present ones alone. -/
def addToSet (members newIds : List Id) : List Id :=
  newIds.foldl (fun acc i => if i ∈ acc then acc else acc ++ [i]) members

/-- Result of a chat endpoint: an error body or a chat payload. -/
inductive ChatResult where
  | err (status : Nat) (message : String)
  | ok (status : Nat) (chat : Chat)
deriving DecidableEq

/-- createChat (chat.controller.ts). The source builds
new Set([...memberIds, userId]): the body member ids are JSON strings and
deduplicate among themselves, but userId is the ObjectId req.user._id, which
a JS Set (SameValueZero) never equates with any string — so the requester
always remains one extra element, appearing twice in the persisted members
when the requester id is also listed in memberIds (mongoose casts every
entry to an ObjectId on save). Validation then branches on isGroup exactly
as in the source. freshId is the id mongoose mints. -/
def createChat (chats : List Chat) (freshId : Id) (userId : Id)
    (memberIds : List Id) (isGroup : Bool) (name : Option String) :
    ChatResult × List Chat :=
  let allMembers := jsSetDedup memberIds ++ [userId]
  if isGroup then
    if falsyStr name || jsTrim (name.getD "") = "" then
      (.err 400 "Group chats must have a name.", chats)
    else if allMembers.length < 3 then
      (.err 400 "Group chats must have at least 3 members.", chats)
    else
      let newChat : Chat :=
        { _id := freshId, name := name.getD "", isGroup := true, members := allMembers }
      (.ok 201 newChat, chats ++ [newChat])
  else
    if allMembers.length ≠ 2 then
      (.err 400 "Direct messages must have exactly 2 members.", chats)
    else if !falsyStr name && jsTrim (name.getD "") ≠ "" then
      (.err 400 "Direct messages cannot have a name.", chats)
    else
      let newChat : Chat :=
        { _id := freshId, name := "", isGroup := false, members := allMembers }
      (.ok 201 newChat, chats ++ [newChat])

/-- getChat (chat.controller.ts): not-found, then the membership check on the
populated members (the source compares member ids via toString). -/
def getChat (chats : List Chat) (userId : Id) (chatId : Id) : ChatResult :=
  match findChat chats chatId with
  | none => .err 404 "Chat not found."
  | some chat =>
    if !(chat.members.any (fun m => m == userId)) then
      .err 403 "You are not authorised to view this chat."
    else
      .ok 200 chat

/-- addMembersToGroupChat (chat.controller.ts). memberIds is none when the
body field is not an array; the checks run in source order: empty input,
not-found, group type, membership, then the addToSet update. -/
def addMembersToGroupChat (chats : List Chat) (userId : Id) (chatId : Id)
    (memberIds : Option (List Id)) : ChatResult × List Chat :=
  match memberIds with
  | none => (.err 400 "You must include at least one user to add as a member.", chats)
  | some mids =>
    if mids.isEmpty then
      (.err 400 "You must include at least one user to add as a member.", chats)
    else
      match findChat chats chatId with
      | none => (.err 404 "Chat not found.", chats)
      | some chat =>
        if !chat.isGroup then
          (.err 400 "You can only add members to group chats.", chats)
        else if !(chat.members.any (fun m => m == userId)) then
          (.err 403 "You are not a member of this chat.", chats)
        else
          let updated := { chat with members := addToSet chat.members mids }
          (.ok 200 updated, updateChat chats updated)

/-- leaveGroupChat (chat.controller.ts): not-found, group type, membership,
then the requester is filtered out of members and the chat saved. -/
def leaveGroupChat (chats : List Chat) (userId : Id) (chatId : Id) :
    (Nat × String) × List Chat :=
  match findChat chats chatId with
  | none => ((404, "Chat not found."), chats)
  | some chat =>
    if !chat.isGroup then
      ((400, "Cannot leave a direct message chat."), chats)
    else if !(chat.members.any (fun m => m == userId)) then
      ((403, "You are not a member of this chat."), chats)
    else
      let updated := { chat with members := chat.members.filter (fun m => m != userId) }
      ((200, "Successfully left the group chat."), updateChat chats updated)

/-- renameGroupChat (chat.controller.ts): blank-name validation first, then
not-found, group type, membership; the name is stored untrimmed. -/
def renameGroupChat (chats : List Chat) (userId : Id) (chatId : Id)
    (name : Option String) : ChatResult × List Chat :=
  if falsyStr name || jsTrim (name.getD "") = "" then
    (.err 400 "Name cannot be empty.", chats)
  else
    match findChat chats chatId with
    | none => (.err 404 "Chat not found.", chats)
    | some chat =>
      if !chat.isGroup then
        (.err 400 "Only group chats can be renamed.", chats)
      else if !(chat.members.any (fun m => m == userId)) then
        (.err 403 "You are not a member of this chat.", chats)
      else
        let updated := { chat with name := name.getD "" }
        (.ok 200 updated, updateChat chats updated)

/-- Result of the message-list endpoint. -/
inductive MessagesResult where
  | err (status : Nat) (message : String)
  | ok (status : Nat) (messages : List Message)
deriving DecidableEq

/-- getChatMessages (message.controller.ts): returns every message whose
chatId matches, with no membership check — the handler never reads the
authenticated user. -/
def getChatMessages (msgs : List Message) (chatId : Id) : MessagesResult :=
  .ok 200 (msgs.filter (fun m => m.chatId == chatId))

/-- Result of a single-message endpoint. -/
inductive MessageResult where
  | err (status : Nat) (message : String)
  | ok (status : Nat) (message : Message)
deriving DecidableEq

/-- sendChatMessage (message controller): content validation only — the
membership of the sender in the target chat is never checked. upload is the
black-box asset host returning the stored image URL, freshId the minted
message id. -/
def sendChatMessage (msgs : List Message) (upload : String → String)
    (freshId : Id) (senderId chatId : Id) (text image : Option String) :
    MessageResult × List Message :=
  if falsyStr text && falsyStr image then
    (.err 400 "Message must include text or image.", msgs)
  else
    let imageUrl : Option String :=
      if falsyStr image then none else some (upload (image.getD ""))
    let newMessage : Message :=
      { _id := freshId, senderId := senderId, chatId := chatId
        text := text, image := imageUrl }
    (.ok 201 newMessage, msgs ++ [newMessage])

/-- editMessage (message controller): not-found, sender-only, text presence,
then the cannot-end-up-empty check, then the trimmed text is saved. -/
def editMessage (msgs : List Message) (userId : Id) (messageId : Id)
    (text : Option String) : MessageResult × List Message :=
  match findMessage msgs messageId with
  | none => (.err 404 "Message not found.", msgs)
  | some message =>
    if message.senderId != userId then
      (.err 403 "You can only edit your own messages.", msgs)
    else
      match text with
      | none => (.err 400 "Text must be provided, even if empty.", msgs)
      | some t =>
        if jsTrim t = "" && falsyStr message.image then
          (.err 400 "Message must have text and/or an image.", msgs)
        else
          let updated := { message with text := some (jsTrim t) }
          (.ok 200 updated, updateMessage msgs updated)

/-- deleteMessage (message controller): not-found, sender-only, then the
document is deleted by id. -/
def deleteMessage (msgs : List Message) (userId : Id) (messageId : Id) :
    (Nat × String) × List Message :=
  match findMessage msgs messageId with
  | none => ((404, "Message not found."), msgs)
  | some message =>
    if message.senderId != userId then
      ((403, "You can only delete your own messages."), msgs)
    else
      ((200, "Message deleted successfully."), msgs.filter (fun m => m._id != messageId))

/-! Helper lemmas about the set-like list operations. -/

theorem mem_jsSetDedupAux (l : List Id) (seen : List Id) (x : Id) :
    x ∈ jsSetDedupAux seen l ↔ x ∈ l ∧ x ∉ seen := by
  induction l generalizing seen with
  | nil => simp [jsSetDedupAux]
  | cons a t ih =>
    by_cases h : a ∈ seen
    · rw [jsSetDedupAux, if_pos h, ih]
      constructor
      · exact fun hx => ⟨List.mem_cons_of_mem a hx.1, hx.2⟩
      · rintro ⟨hx, hns⟩
        rcases List.mem_cons.mp hx with rfl | hx
        · exact absurd h hns
        · exact ⟨hx, hns⟩
    · rw [jsSetDedupAux, if_neg h]
      constructor
      · intro hx
        rcases List.mem_cons.mp hx with rfl | hx
        · exact ⟨List.mem_cons_self x t, h⟩
        · rcases (ih (a :: seen)).mp hx with ⟨ht, hns⟩
          exact ⟨List.mem_cons_of_mem a ht,
            fun hs => hns (List.mem_cons_of_mem a hs)⟩
      · rintro ⟨hx, hns⟩
        rcases List.mem_cons.mp hx with rfl | hx
        · exact List.mem_cons_self x _
        · by_cases hxa : x = a
          · exact hxa ▸ List.mem_cons_self a _
          · exact List.mem_cons_of_mem a <| (ih (a :: seen)).mpr
              ⟨hx, fun hs => (List.mem_cons.mp hs).elim hxa hns⟩

theorem nodup_jsSetDedupAux (l : List Id) (seen : List Id) :
    (jsSetDedupAux seen l).Nodup := by
  induction l generalizing seen with
  | nil => simp [jsSetDedupAux]
  | cons a t ih =>
    by_cases h : a ∈ seen
    · rw [jsSetDedupAux, if_pos h]; exact ih seen
    · rw [jsSetDedupAux, if_neg h]
      refine List.nodup_cons.mpr ⟨fun hmem => ?_, ih (a :: seen)⟩
      exact ((mem_jsSetDedupAux t (a :: seen) a).mp hmem).2 (List.mem_cons_self a seen)

theorem mem_jsSetDedup (l : List Id) (x : Id) : x ∈ jsSetDedup l ↔ x ∈ l := by
  rw [jsSetDedup, mem_jsSetDedupAux]
  simp

theorem nodup_jsSetDedup (l : List Id) : (jsSetDedup l).Nodup :=
  nodup_jsSetDedupAux l []

theorem toFinset_jsSetDedup (l : List Id) : (jsSetDedup l).toFinset = l.toFinset := by
  ext x
  simp [mem_jsSetDedup]

theorem length_jsSetDedup (l : List Id) : (jsSetDedup l).length = l.toFinset.card := by
  rw [← toFinset_jsSetDedup, List.toFinset_card_of_nodup (nodup_jsSetDedup l)]

theorem mem_addToSet (ms ids : List Id) (x : Id) :
    x ∈ addToSet ms ids ↔ x ∈ ms ∨ x ∈ ids := by
  induction ids generalizing ms with
  | nil => simp [addToSet]
  | cons a t ih =>
    rw [addToSet, List.foldl_cons]
    simp only [addToSet] at ih
    by_cases h : a ∈ ms
    · rw [if_pos h, ih ms]
      constructor
      · rintro (hx | hx)
        · exact Or.inl hx
        · exact Or.inr (List.mem_cons_of_mem a hx)
      · rintro (hx | hx)
        · exact Or.inl hx
        · rcases List.mem_cons.mp hx with rfl | hx
          · exact Or.inl h
          · exact Or.inr hx
    · rw [if_neg h, ih (ms ++ [a])]
      simp only [List.mem_append, List.mem_singleton, List.mem_cons]
      tauto

theorem addToSet_of_subset (ms ids : List Id) (h : ∀ x ∈ ids, x ∈ ms) :
    addToSet ms ids = ms := by
  induction ids with
  | nil => rfl
  | cons a t ih =>
    rw [addToSet, List.foldl_cons, if_pos (h a (List.mem_cons_self a t))]
    exact ih fun x hx => h x (List.mem_cons_of_mem a hx)

theorem nodup_addToSet (ms ids : List Id) (h : ms.Nodup) :
    (addToSet ms ids).Nodup := by
  induction ids generalizing ms with
  | nil => exact h
  | cons a t ih =>
    rw [addToSet, List.foldl_cons]
    simp only [addToSet] at ih
    by_cases ha : a ∈ ms
    · rw [if_pos ha]; exact ih ms h
    · rw [if_neg ha]
      refine ih (ms ++ [a]) ?_
      simp [List.nodup_append, h, ha]

theorem toFinset_addToSet (ms ids : List Id) :
    (addToSet ms ids).toFinset = ms.toFinset ∪ ids.toFinset := by
  ext x
  simp [mem_addToSet]

theorem length_updateChat (chats : List Chat) (c : Chat) :
    (updateChat chats c).length = chats.length := by
  simp [updateChat]

theorem findChat_updateChat (chats : List Chat) (i : Id) (c0 c : Chat)
    (h : findChat chats i = some c0) (hid : c._id = c0._id) :
    findChat (updateChat chats c) i = some c := by
  induction chats with
  | nil => simp [findChat] at h
  | cons x t ih =>
    simp only [findChat, List.find?_cons] at h
    by_cases hx : (x._id == i) = true
    · simp only [hx] at h
      have hx0 : x = c0 := by injection h
      subst hx0
      have hxc : (x._id == c._id) = true := by
        rw [hid]; exact beq_self_eq_true x._id
      have hci : (c._id == i) = true := by rw [hid]; exact hx
      simp only [updateChat, List.map_cons, if_pos hxc, findChat,
        List.find?_cons, hci]
    · simp only [hx] at h
      have hpred := List.find?_some h
      have hxc : ¬(x._id == c._id) = true := by
        intro hc
        apply hx
        have hx0 : x._id = c._id := eq_of_beq hc
        rw [hx0, hid]; exact hpred
      have hrec : findChat (updateChat t c) i = some c := ih h
      simp only [findChat, updateChat] at hrec
      simp only [updateChat, List.map_cons, if_neg hxc, findChat,
        List.find?_cons, hx, hrec]

theorem findMessage_updateMessage (msgs : List Message) (i : Id) (m0 m : Message)
    (h : findMessage msgs i = some m0) (hid : m._id = m0._id) :
    findMessage (updateMessage msgs m) i = some m := by
  induction msgs with
  | nil => simp [findMessage] at h
  | cons x t ih =>
    simp only [findMessage, List.find?_cons] at h
    by_cases hx : (x._id == i) = true
    · simp only [hx] at h
      have hx0 : x = m0 := by injection h
      subst hx0
      have hxc : (x._id == m._id) = true := by
        rw [hid]; exact beq_self_eq_true x._id
      have hmi : (m._id == i) = true := by rw [hid]; exact hx
      simp only [updateMessage, List.map_cons, if_pos hxc, findMessage,
        List.find?_cons, hmi]
    · simp only [hx] at h
      have hpred := List.find?_some h
      have hxc : ¬(x._id == m._id) = true := by
        intro hc
        apply hx
        have hx0 : x._id = m._id := eq_of_beq hc
        rw [hx0, hid]; exact hpred
      have hrec : findMessage (updateMessage t m) i = some m := ih h
      simp only [findMessage, updateMessage] at hrec
      simp only [updateMessage, List.map_cons, if_neg hxc, findMessage,
        List.find?_cons, hx, hrec]

/-! The claims. -/

/-- C1: the claim that every user view returned to a client excludes the
stored password hash fails on the session-check path. protectRoute projects
the resolved user with an inclusive select of the bare password field (its
own comment says the intent was to exclude it), and checkAuth serializes the
attached document, so a successful GET /api/auth/check response body carries
the password hash. Concrete run: one stored user and a token verifying to
the id of that user. -/
theorem C1_auth_check_returns_password_hash :
    protectRoute
      [{ _id := "u1", name := "Alice", email := "alice@example.com",
         password := "stored-bcrypt-hash", profilePic := "", aboutMe := "" }]
      (fun t => if t = "tok" then some "u1" else none) (some "tok")
      = .next { _id := "u1", password := "stored-bcrypt-hash" } ∧
    checkAuth { _id := "u1", password := "stored-bcrypt-hash" }
      = (200, [("_id", "u1"), ("password", "stored-bcrypt-hash")]) ∧
    ("password", "stored-bcrypt-hash") ∈
      (checkAuth { _id := "u1", password := "stored-bcrypt-hash" }).2 := by
  refine ⟨rfl, rfl, ?_⟩
  simp [checkAuth, serializeAuthUser]

theorem protectRoute_token_absent (users : List User)
    (verify : String → Option Id) :
    protectRoute users verify none =
      .halt 401 [("message", "Unauthorised - No Token Provided")] := rfl

theorem protectRoute_token_empty (users : List User)
    (verify : String → Option Id) :
    protectRoute users verify (some "") =
      .halt 401 [("message", "Unauthorised - No Token Provided")] := by
  simp [protectRoute]

theorem protectRoute_verify_failure (users : List User)
    (verify : String → Option Id) (t : String) (ht : ¬t = "")
    (hv : verify t = none) :
    protectRoute users verify (some t) =
      .halt 500 [("message", "Internal Server Error")] := by
  simp [protectRoute, ht, hv]

theorem protectRoute_user_missing (users : List User)
    (verify : String → Option Id) (t : String) (uid : Id) (ht : ¬t = "")
    (hv : verify t = some uid) (hf : findById users uid = none) :
    protectRoute users verify (some t) =
      .halt 404 [("message", "User not found")] := by
  simp [protectRoute, ht, hv, hf]

theorem protectRoute_success (users : List User)
    (verify : String → Option Id) (t : String) (uid : Id) (usr : User)
    (ht : ¬t = "") (hv : verify t = some uid)
    (hf : findById users uid = some usr) :
    protectRoute users verify (some t) = .next (selectPassword usr) := by
  simp [protectRoute, ht, hv, hf]

theorem protectRoute_next_characterization (users : List User)
    (verify : String → Option Id) (token : Option String) :
    (∃ u, protectRoute users verify token = .next u) ↔
      ∃ t uid usr, token = some t ∧ ¬t = "" ∧ verify t = some uid ∧
        findById users uid = some usr := by
  cases token with
  | none => simp [protectRoute]
  | some t =>
    by_cases ht : t = ""
    · subst ht
      simp [protectRoute]
    · cases hv : verify t with
      | none => simp [protectRoute, ht, hv]
      | some uid =>
        cases hf : findById users uid with
        | none => simp [protectRoute, ht, hv, hf]
        | some usr =>
          constructor
          · intro _
            exact ⟨t, uid, usr, rfl, ht, hv, hf⟩
          · intro _
            exact ⟨selectPassword usr, by simp [protectRoute, ht, hv, hf]⟩

/-- C4: the claim names the right contract — next exactly on a present,
verifying, resolving token; one error response otherwise; never next after a
failure — but the code slips on the verification-failure path: the
synchronous jwt.verify throws on an invalid or expired token, the catch-all
answers 500 Internal Server Error, and the 401 Invalid Token branch (a
falsiness test on a successfully returned payload object) is unreachable.
Concrete runs: a rejected non-empty cookie yields 500 and not the claimed
401; the absent-token 401, unresolved-user 404 and success paths behave as
claimed. -/
theorem C4_invalid_token_yields_500 :
    protectRoute [{ _id := "u1", name := "Alice", email := "a@x", password := "H", profilePic := "", aboutMe := "" }]
        (fun _ => none) (some "expired-token")
      = .halt 500 [("message", "Internal Server Error")] ∧
    ¬ protectRoute [{ _id := "u1", name := "Alice", email := "a@x", password := "H", profilePic := "", aboutMe := "" }]
        (fun _ => none) (some "expired-token")
      = .halt 401 [("message", "Unauthorised - Invalid Token")] ∧
    protectRoute [{ _id := "u1", name := "Alice", email := "a@x", password := "H", profilePic := "", aboutMe := "" }]
        (fun _ => none) none
      = .halt 401 [("message", "Unauthorised - No Token Provided")] ∧
    protectRoute [{ _id := "u1", name := "Alice", email := "a@x", password := "H", profilePic := "", aboutMe := "" }]
        (fun t => if t = "tok" then some "u9" else none) (some "tok")
      = .halt 404 [("message", "User not found")] ∧
    protectRoute [{ _id := "u1", name := "Alice", email := "a@x", password := "H", profilePic := "", aboutMe := "" }]
        (fun t => if t = "tok" then some "u1" else none) (some "tok")
      = .next { _id := "u1", password := "H" } := by
  decide

/-- C5: an unknown email and a known email with a non-matching password are
indistinguishable at login: both responses are status 400 with the identical
Invalid-credentials body. -/
theorem C5_login_indistinguishable (users : List User)
    (cmp : String → String → Bool) (e1 p1 e2 p2 : String) (u : User)
    (h1 : findByEmail users e1 = none)
    (h2 : findByEmail users e2 = some u)
    (h3 : cmp p2 u.password = false) :
    login users cmp e1 p1 = (400, [("message", "Invalid credentials")]) ∧
    login users cmp e2 p2 = (400, [("message", "Invalid credentials")]) ∧
    login users cmp e1 p1 = login users cmp e2 p2 := by
  refine ⟨?_, ?_, ?_⟩ <;> simp [login, h1, h2, h3]

/-- C5 witness: a store holding exactly one user; one attempt with an
unknown email, one with the stored email and a rejected password. -/
theorem C5_login_indistinguishable_witness :
    login [{ _id := "u1", name := "Alice", email := "a@x", password := "H", profilePic := "", aboutMe := "" }]
      (fun _ _ => false) "b@x" "pw1"
      = (400, [("message", "Invalid credentials")]) ∧
    login [{ _id := "u1", name := "Alice", email := "a@x", password := "H", profilePic := "", aboutMe := "" }]
      (fun _ _ => false) "a@x" "pw2"
      = (400, [("message", "Invalid credentials")]) ∧
    login [{ _id := "u1", name := "Alice", email := "a@x", password := "H", profilePic := "", aboutMe := "" }]
      (fun _ _ => false) "b@x" "pw1"
      = login [{ _id := "u1", name := "Alice", email := "a@x", password := "H", profilePic := "", aboutMe := "" }]
          (fun _ _ => false) "a@x" "pw2" :=
  C5_login_indistinguishable
    [{ _id := "u1", name := "Alice", email := "a@x", password := "H", profilePic := "", aboutMe := "" }]
    (fun _ _ => false) "b@x" "pw1" "a@x" "pw2"
    { _id := "u1", name := "Alice", email := "a@x", password := "H", profilePic := "", aboutMe := "" }
    rfl rfl rfl

/-- C2: membership is never checked for message listing or sending, but is
checked when reading the chat itself: for a requester who is not a member of
an existing chat, getChatMessages returns 200 with exactly the messages of
that chat, sendChatMessage accepts a text message from the non-member, and
getChat answers 403. -/
theorem C2_message_endpoints_skip_membership (chats : List Chat)
    (msgs : List Message) (requester : Id) (chat : Chat)
    (hfound : findChat chats chat._id = some chat)
    (hmem : requester ∉ chat.members) :
    (getChatMessages msgs chat._id
        = .ok 200 (msgs.filter (fun m => m.chatId == chat._id)) ∧
      ∀ m, m ∈ msgs.filter (fun m => m.chatId == chat._id) ↔
        m ∈ msgs ∧ m.chatId = chat._id) ∧
    (∀ upload freshId t, ¬t = "" →
      sendChatMessage msgs upload freshId requester chat._id (some t) none
        = (.ok 201 { _id := freshId, senderId := requester, chatId := chat._id, text := some t, image := none },
           msgs ++ [{ _id := freshId, senderId := requester, chatId := chat._id, text := some t, image := none }])) ∧
    getChat chats requester chat._id
      = .err 403 "You are not authorised to view this chat." := by
  refine ⟨⟨rfl, ?_⟩, ?_, ?_⟩
  · intro m
    simp [List.mem_filter]
  · intro upload freshId t ht
    simp [sendChatMessage, falsyStr, ht]
  · have hany : (chat.members.any fun m => m == requester) = false := by
      rw [List.any_eq_false]
      intro m hm
      simp only [beq_iff_eq]
      intro hmr
      exact hmem (hmr ▸ hm)
    simp [getChat, hfound, hany]

/-- C2 witness: a two-member direct chat, one stored message, and requester
u3 who is not a member. -/
theorem C2_message_endpoints_skip_membership_witness :
    getChat [{ _id := "c1", name := "", isGroup := false, members := ["u1", "u2"] }] "u3" "c1"
      = .err 403 "You are not authorised to view this chat." ∧
    sendChatMessage [{ _id := "m1", senderId := "u1", chatId := "c1", text := some "hi", image := none }]
        (fun s => s) "m2" "u3" "c1" (some "yo") none
      = (.ok 201 { _id := "m2", senderId := "u3", chatId := "c1", text := some "yo", image := none },
         [{ _id := "m1", senderId := "u1", chatId := "c1", text := some "hi", image := none },
          { _id := "m2", senderId := "u3", chatId := "c1", text := some "yo", image := none }]) ∧
    getChatMessages [{ _id := "m1", senderId := "u1", chatId := "c1", text := some "hi", image := none }] "c1"
      = .ok 200 [{ _id := "m1", senderId := "u1", chatId := "c1", text := some "hi", image := none }] := by
  have h := C2_message_endpoints_skip_membership
    [{ _id := "c1", name := "", isGroup := false, members := ["u1", "u2"] }]
    [{ _id := "m1", senderId := "u1", chatId := "c1", text := some "hi", image := none }]
    "u3" { _id := "c1", name := "", isGroup := false, members := ["u1", "u2"] }
    rfl (by decide)
  exact ⟨h.2.2, h.2.1 (fun s => s) "m2" "yo" (by decide), by decide⟩

/-- C3: only the original sender may edit or delete a message: a requester
whose id differs from the stored senderId gets 403 from both editMessage and
deleteMessage, and the message store is returned unchanged. -/
theorem C3_sender_only_edit_delete (msgs : List Message) (requester : Id)
    (mid : Id) (msg : Message)
    (hfound : findMessage msgs mid = some msg)
    (hne : ¬msg.senderId = requester) :
    (∀ t, editMessage msgs requester mid t
      = (.err 403 "You can only edit your own messages.", msgs)) ∧
    deleteMessage msgs requester mid
      = ((403, "You can only delete your own messages."), msgs) := by
  have hb : (msg.senderId != requester) = true := by
    simp [hne]
  constructor
  · intro t
    simp [editMessage, hfound, hb]
  · simp [deleteMessage, hfound, hb]

/-- C3 witness: a message sent by u1 and a different requester u2. -/
theorem C3_sender_only_edit_delete_witness :
    editMessage [{ _id := "m1", senderId := "u1", chatId := "c1", text := some "hi", image := none }]
        "u2" "m1" (some "new")
      = (.err 403 "You can only edit your own messages.",
         [{ _id := "m1", senderId := "u1", chatId := "c1", text := some "hi", image := none }]) ∧
    deleteMessage [{ _id := "m1", senderId := "u1", chatId := "c1", text := some "hi", image := none }]
        "u2" "m1"
      = ((403, "You can only delete your own messages."),
         [{ _id := "m1", senderId := "u1", chatId := "c1", text := some "hi", image := none }]) := by
  have h := C3_sender_only_edit_delete
    [{ _id := "m1", senderId := "u1", chatId := "c1", text := some "hi", image := none }]
    "u2" "m1" { _id := "m1", senderId := "u1", chatId := "c1", text := some "hi", image := none }
    rfl (by decide)
  exact ⟨h.1 (some "new"), h.2⟩

/-- C9: for the sender of an existing message, editMessage rejects an absent
text, rejects an empty trimmed text when the message has no image, accepts
and persists the empty string when an image is attached, persists the
trimmed text otherwise, and every accepted edit leaves the message with text
or an image. -/
theorem C9_edit_preserves_content_invariant (msgs : List Message)
    (uid mid : Id) (msg : Message)
    (hfound : findMessage msgs mid = some msg)
    (hsender : msg.senderId = uid) :
    (editMessage msgs uid mid none
      = (.err 400 "Text must be provided, even if empty.", msgs)) ∧
    (∀ t, jsTrim t = "" → falsyStr msg.image = true →
      editMessage msgs uid mid (some t)
        = (.err 400 "Message must have text and/or an image.", msgs)) ∧
    (∀ t, jsTrim t = "" → falsyStr msg.image = false →
      editMessage msgs uid mid (some t)
        = (.ok 200 { msg with text := some "" },
           updateMessage msgs { msg with text := some "" })) ∧
    (∀ t, ¬jsTrim t = "" →
      editMessage msgs uid mid (some t)
        = (.ok 200 { msg with text := some (jsTrim t) },
           updateMessage msgs { msg with text := some (jsTrim t) })) ∧
    (∀ t m2 rest, editMessage msgs uid mid t = (.ok 200 m2, rest) →
      ¬(falsyStr m2.text = true ∧ falsyStr m2.image = true)) := by
  have hb : (msg.senderId != uid) = false := by
    simp [hsender]
  refine ⟨?_, ?_, ?_, ?_, ?_⟩
  · simp [editMessage, hfound, hb]
  · intro t ht hi
    simp [editMessage, hfound, hb, ht, hi]
  · intro t ht hi
    rw [show (some "" : Option String) = some (jsTrim t) from by rw [ht]]
    simp [editMessage, hfound, hb, ht, hi]
  · intro t ht
    simp [editMessage, hfound, hb, ht]
  · rintro t m2 rest h
    cases t with
    | none => simp [editMessage, hfound, hb] at h
    | some s =>
      by_cases hs : jsTrim s = ""
      · by_cases hi : falsyStr msg.image = true
        · simp [editMessage, hfound, hb, hs, hi] at h
        · simp only [Bool.not_eq_true] at hi
          rintro ⟨htext, himg⟩
          have hm2 : m2 = { msg with text := some "" } := by
            simp [editMessage, hfound, hb, hs, hi] at h
            exact h.1.symm
          rw [hm2] at himg
          simp [hi] at himg
      · rintro ⟨htext, himg⟩
        have hm2 : m2 = { msg with text := some (jsTrim s) } := by
          simp [editMessage, hfound, hb, hs] at h
          exact h.1.symm
        rw [hm2] at htext
        simp [falsyStr, hs] at htext

/-- C9 witness: a text-only message rejects the empty edit, a message with
an image accepts it and stores the empty string, and a nonempty edit stores
the trimmed text. -/
theorem C9_edit_preserves_content_invariant_witness :
    editMessage [{ _id := "m1", senderId := "u1", chatId := "c1", text := some "hi", image := none }]
        "u1" "m1" (some " ")
      = (.err 400 "Message must have text and/or an image.",
         [{ _id := "m1", senderId := "u1", chatId := "c1", text := some "hi", image := none }]) ∧
    editMessage [{ _id := "m2", senderId := "u1", chatId := "c1", text := some "hi", image := some "pic" }]
        "u1" "m2" (some " ")
      = (.ok 200 { _id := "m2", senderId := "u1", chatId := "c1", text := some "", image := some "pic" },
         [{ _id := "m2", senderId := "u1", chatId := "c1", text := some "", image := some "pic" }]) ∧
    editMessage [{ _id := "m1", senderId := "u1", chatId := "c1", text := some "hi", image := none }]
        "u1" "m1" (some " yo ")
      = (.ok 200 { _id := "m1", senderId := "u1", chatId := "c1", text := some "yo", image := none },
         [{ _id := "m1", senderId := "u1", chatId := "c1", text := some "yo", image := none }]) := by
  have h1 := C9_edit_preserves_content_invariant
    [{ _id := "m1", senderId := "u1", chatId := "c1", text := some "hi", image := none }]
    "u1" "m1" { _id := "m1", senderId := "u1", chatId := "c1", text := some "hi", image := none }
    rfl rfl
  have h2 := C9_edit_preserves_content_invariant
    [{ _id := "m2", senderId := "u1", chatId := "c1", text := some "hi", image := some "pic" }]
    "u1" "m2" { _id := "m2", senderId := "u1", chatId := "c1", text := some "hi", image := some "pic" }
    rfl rfl
  refine ⟨h1.2.1 " " (by decide) (by decide), ?_, ?_⟩
  · have := h2.2.2.1 " " (by decide) (by decide)
    simpa [updateMessage] using this
  · have := h1.2.2.2.1 " yo " (by decide)
    simpa [updateMessage] using this

/-- C6 counterexample: the claim says allMembers is the deduplicated union
of memberIds and the requester, so a group request by u1 listing u1 and u2
has 2 unique members and must fail the minimum-3 check regardless of the
duplicate, and the matching direct request has exactly 2 and must succeed.
The code does neither: the JS Set never equates the body string ids with the
ObjectId requester, so both requests count 3 members — the group one is
created with u1 stored twice, the direct one is rejected. -/
theorem C6_createChat_counterexample :
    (jsSetDedup (["u1", "u2"] ++ ["u1"])).length = 2 ∧
    createChat [] "c9" "u1" ["u1", "u2"] true (some "g")
      = (.ok 201 { _id := "c9", name := "g", isGroup := true, members := ["u1", "u2", "u1"] },
         [{ _id := "c9", name := "g", isGroup := true, members := ["u1", "u2", "u1"] }]) ∧
    createChat [] "c8" "u1" ["u1", "u2"] false none
      = (.err 400 "Direct messages must have exactly 2 members.", []) := by
  decide

/-- C6 (amended): createChat deduplicates the supplied member ids and
appends the requester as an always-distinct extra element — the JS Set never
equates the body string ids with the ObjectId requester — so |allMembers| is
the number of distinct supplied ids plus one, independent of order and
duplicates among the supplied ids only; group chats fail on a blank name,
then on |allMembers| < 3; direct chats fail unless |allMembers| = 2, or on a
non-blank name; every successful direct chat is persisted with the empty
name. -/
theorem C6_createChat_validation_amended (chats : List Chat)
    (freshId uid : Id) (memberIds : List Id) (isGroup : Bool)
    (name : Option String) :
    (∀ x, x ∈ jsSetDedup memberIds ++ [uid] ↔ x ∈ memberIds ∨ x = uid) ∧
    (jsSetDedup memberIds ++ [uid]).length = memberIds.toFinset.card + 1 ∧
    (∀ memberIds2, memberIds2.toFinset = memberIds.toFinset →
      (jsSetDedup memberIds2 ++ [uid]).length
        = (jsSetDedup memberIds ++ [uid]).length) ∧
    (isGroup = true →
      (falsyStr name = true ∨ jsTrim (name.getD "") = "") →
      (createChat chats freshId uid memberIds isGroup name).1
        = .err 400 "Group chats must have a name.") ∧
    (isGroup = true → falsyStr name = false → ¬jsTrim (name.getD "") = "" →
      (jsSetDedup memberIds ++ [uid]).length < 3 →
      (createChat chats freshId uid memberIds isGroup name).1
        = .err 400 "Group chats must have at least 3 members.") ∧
    (isGroup = false → ¬(jsSetDedup memberIds ++ [uid]).length = 2 →
      (createChat chats freshId uid memberIds isGroup name).1
        = .err 400 "Direct messages must have exactly 2 members.") ∧
    (isGroup = false → (jsSetDedup memberIds ++ [uid]).length = 2 →
      falsyStr name = false → ¬jsTrim (name.getD "") = "" →
      (createChat chats freshId uid memberIds isGroup name).1
        = .err 400 "Direct messages cannot have a name.") ∧
    (isGroup = false → (jsSetDedup memberIds ++ [uid]).length = 2 →
      (falsyStr name = true ∨ jsTrim (name.getD "") = "") →
      createChat chats freshId uid memberIds isGroup name
        = (.ok 201 { _id := freshId, name := "", isGroup := false,
                     members := jsSetDedup memberIds ++ [uid] },
           chats ++ [{ _id := freshId, name := "", isGroup := false,
                       members := jsSetDedup memberIds ++ [uid] }])) := by
  refine ⟨?_, ?_, ?_, ?_, ?_, ?_, ?_, ?_⟩
  · intro x
    simp [mem_jsSetDedup]
  · simp [List.length_append, length_jsSetDedup]
  · intro memberIds2 h
    rw [List.length_append, List.length_append, length_jsSetDedup,
      length_jsSetDedup, h]
  · rintro hg (hbl | hbl) <;> subst hg <;> simp [createChat, hbl]
  · intro hg hfn htr hlt
    subst hg
    have hlt2 : (jsSetDedup memberIds).length + 1 < 3 := by
      simpa [List.length_append] using hlt
    simp [createChat, hfn, htr, hlt2]
  · intro hg hlen
    subst hg
    have hlen2 : ¬(jsSetDedup memberIds).length = 1 := by
      simp only [List.length_append, List.length_singleton] at hlen
      omega
    simp [createChat, hlen2]
  · intro hg hlen hfn htr
    subst hg
    simp [createChat, hlen, hfn, htr]
  · rintro hg hlen (hbl | hbl) <;> subst hg <;>
      simp [createChat, hlen, hbl]

/-- C7: on an existing direct chat every membership mutation fails with a
400 validation error in the source check order: addMembersToGroupChat
rejects an empty or missing member list before anything else, otherwise
rejects the non-group chat; leaveGroupChat rejects the direct chat;
renameGroupChat rejects a blank name before anything else, otherwise rejects
the non-group chat. Membership of the requester is irrelevant (uid is
arbitrary), and the last two conjuncts show the empty-input and blank-name
validations fire even when the chat does not exist at all. -/
theorem C7_direct_chat_mutations_fail_validation (chats : List Chat)
    (uid cid : Id) (chat : Chat)
    (hfound : findChat chats cid = some chat)
    (hdm : chat.isGroup = false) :
    (addMembersToGroupChat chats uid cid none
      = (.err 400 "You must include at least one user to add as a member.", chats)) ∧
    (addMembersToGroupChat chats uid cid (some [])
      = (.err 400 "You must include at least one user to add as a member.", chats)) ∧
    (∀ mids, ¬mids = [] →
      addMembersToGroupChat chats uid cid (some mids)
        = (.err 400 "You can only add members to group chats.", chats)) ∧
    (leaveGroupChat chats uid cid
      = ((400, "Cannot leave a direct message chat."), chats)) ∧
    (∀ nm, (falsyStr nm = true ∨ jsTrim (nm.getD "") = "") →
      renameGroupChat chats uid cid nm
        = (.err 400 "Name cannot be empty.", chats)) ∧
    (∀ nm, falsyStr nm = false → ¬jsTrim (nm.getD "") = "" →
      renameGroupChat chats uid cid nm
        = (.err 400 "Only group chats can be renamed.", chats)) ∧
    (∀ chats2 cid2, addMembersToGroupChat chats2 uid cid2 (some [])
      = (.err 400 "You must include at least one user to add as a member.", chats2)) ∧
    (∀ chats2 cid2 nm, falsyStr nm = true →
      renameGroupChat chats2 uid cid2 nm
        = (.err 400 "Name cannot be empty.", chats2)) := by
  refine ⟨rfl, ?_, ?_, ?_, ?_, ?_, ?_, ?_⟩
  · simp [addMembersToGroupChat]
  · intro mids hne
    simp [addMembersToGroupChat, List.isEmpty_iff, hne, hfound, hdm]
  · simp [leaveGroupChat, hfound, hdm]
  · rintro nm (hbl | hbl) <;> simp [renameGroupChat, hbl]
  · intro nm hfn htr
    simp [renameGroupChat, hfn, htr, hfound, hdm]
  · intro chats2 cid2
    simp [addMembersToGroupChat]
  · intro chats2 cid2 nm hfn
    simp [renameGroupChat, hfn]

/-- C7 witness: a direct chat between u1 and u2, requester u1. -/
theorem C7_direct_chat_mutations_fail_validation_witness :
    addMembersToGroupChat [{ _id := "c1", name := "", isGroup := false, members := ["u1", "u2"] }]
        "u1" "c1" (some ["u3"])
      = (.err 400 "You can only add members to group chats.",
         [{ _id := "c1", name := "", isGroup := false, members := ["u1", "u2"] }]) ∧
    leaveGroupChat [{ _id := "c1", name := "", isGroup := false, members := ["u1", "u2"] }] "u1" "c1"
      = ((400, "Cannot leave a direct message chat."),
         [{ _id := "c1", name := "", isGroup := false, members := ["u1", "u2"] }]) ∧
    renameGroupChat [{ _id := "c1", name := "", isGroup := false, members := ["u1", "u2"] }]
        "u1" "c1" (some "New Name")
      = (.err 400 "Only group chats can be renamed.",
         [{ _id := "c1", name := "", isGroup := false, members := ["u1", "u2"] }]) := by
  have h := C7_direct_chat_mutations_fail_validation
    [{ _id := "c1", name := "", isGroup := false, members := ["u1", "u2"] }]
    "u1" "c1" { _id := "c1", name := "", isGroup := false, members := ["u1", "u2"] }
    rfl rfl
  exact ⟨h.2.2.1 ["u3"] (by decide), h.2.2.2.1,
    h.2.2.2.2.2.1 (some "New Name") (by decide) (by decide)⟩

/-- C8: a member leaving a group chat removes exactly the requester from the
member set, leaves the other members and the remaining fields in place, and
persists the chat: the store keeps the same number of chats, the chat is
still found under its id, and no minimum-membership condition guards the
removal. -/
theorem C8_leaveChat_removes_only_requester (chats : List Chat)
    (uid cid : Id) (chat : Chat)
    (hfound : findChat chats cid = some chat)
    (hg : chat.isGroup = true)
    (hmem : uid ∈ chat.members) :
    leaveGroupChat chats uid cid
      = ((200, "Successfully left the group chat."),
         updateChat chats
           { chat with members := chat.members.filter (fun m => m != uid) }) ∧
    (∀ m, m ∈ chat.members.filter (fun m => m != uid) ↔
      m ∈ chat.members ∧ ¬m = uid) ∧
    ({ chat with members := chat.members.filter (fun m => m != uid) } : Chat)._id
        = chat._id ∧
    ({ chat with members := chat.members.filter (fun m => m != uid) } : Chat).name
        = chat.name ∧
    ({ chat with members := chat.members.filter (fun m => m != uid) } : Chat).isGroup
        = chat.isGroup ∧
    (leaveGroupChat chats uid cid).2.length = chats.length ∧
    findChat (leaveGroupChat chats uid cid).2 cid
      = some { chat with members := chat.members.filter (fun m => m != uid) } := by
  have hany : (chat.members.any fun m => m == uid) = true := by
    rw [List.any_eq_true]
    exact ⟨uid, hmem, beq_self_eq_true uid⟩
  have hmain : leaveGroupChat chats uid cid
      = ((200, "Successfully left the group chat."),
         updateChat chats
           { chat with members := chat.members.filter (fun m => m != uid) }) := by
    simp [leaveGroupChat, hfound, hg, hany]
  refine ⟨hmain, ?_, rfl, rfl, rfl, ?_, ?_⟩
  · intro m
    simp [List.mem_filter]
  · rw [hmain]
    exact length_updateChat chats _
  · rw [hmain]
    exact findChat_updateChat chats cid chat _ hfound rfl

/-- C8 witness: a three-member group chat shrinks to two members — below the
creation minimum — and is still persisted. -/
theorem C8_leaveChat_removes_only_requester_witness :
    leaveGroupChat [{ _id := "c1", name := "trio", isGroup := true, members := ["u1", "u2", "u3"] }]
        "u1" "c1"
      = ((200, "Successfully left the group chat."),
         [{ _id := "c1", name := "trio", isGroup := true, members := ["u2", "u3"] }]) ∧
    findChat (leaveGroupChat [{ _id := "c1", name := "trio", isGroup := true, members := ["u1", "u2", "u3"] }]
        "u1" "c1").2 "c1"
      = some { _id := "c1", name := "trio", isGroup := true, members := ["u2", "u3"] } := by
  have h := C8_leaveChat_removes_only_requester
    [{ _id := "c1", name := "trio", isGroup := true, members := ["u1", "u2", "u3"] }]
    "u1" "c1" { _id := "c1", name := "trio", isGroup := true, members := ["u1", "u2", "u3"] }
    rfl rfl (by decide)
  refine ⟨?_, ?_⟩
  · have h1 := h.1
    simpa [updateChat] using h1
  · have h7 := h.2.2.2.2.2.2
    simpa using h7

/-- C10: a successful addMembersToGroupChat updates the member list with set
semantics: the resulting members are exactly the union of the old member set
and the supplied ids, ids already present are no-ops (the list is left
literally unchanged when every supplied id is already a member), and no
duplicates are introduced into a duplicate-free member list. -/
theorem C10_addMembers_set_semantics (chats : List Chat) (uid cid : Id)
    (mids : List Id) (chat : Chat)
    (hne : ¬mids = [])
    (hfound : findChat chats cid = some chat)
    (hg : chat.isGroup = true)
    (hmem : uid ∈ chat.members) :
    addMembersToGroupChat chats uid cid (some mids)
      = (.ok 200 { chat with members := addToSet chat.members mids },
         updateChat chats { chat with members := addToSet chat.members mids }) ∧
    (addToSet chat.members mids).toFinset
      = chat.members.toFinset ∪ mids.toFinset ∧
    (∀ x, x ∈ addToSet chat.members mids ↔ x ∈ chat.members ∨ x ∈ mids) ∧
    ((∀ x ∈ mids, x ∈ chat.members) → addToSet chat.members mids = chat.members) ∧
    (chat.members.Nodup → (addToSet chat.members mids).Nodup) := by
  have hany : (chat.members.any fun m => m == uid) = true := by
    rw [List.any_eq_true]
    exact ⟨uid, hmem, beq_self_eq_true uid⟩
  refine ⟨?_, toFinset_addToSet _ _, fun x => mem_addToSet _ _ x,
    addToSet_of_subset _ _, nodup_addToSet _ _⟩
  simp [addMembersToGroupChat, List.isEmpty_iff, hne, hfound, hg, hany]

/-- C10 witness: adding one present and one new id to a three-member group
extends the set by just the new id; adding only a present id leaves the
member list unchanged. -/
theorem C10_addMembers_set_semantics_witness :
    addMembersToGroupChat [{ _id := "c1", name := "trio", isGroup := true, members := ["u1", "u2", "u3"] }]
        "u1" "c1" (some ["u2", "u4"])
      = (.ok 200 { _id := "c1", name := "trio", isGroup := true, members := ["u1", "u2", "u3", "u4"] },
         [{ _id := "c1", name := "trio", isGroup := true, members := ["u1", "u2", "u3", "u4"] }]) ∧
    addMembersToGroupChat [{ _id := "c1", name := "trio", isGroup := true, members := ["u1", "u2", "u3"] }]
        "u1" "c1" (some ["u2"])
      = (.ok 200 { _id := "c1", name := "trio", isGroup := true, members := ["u1", "u2", "u3"] },
         [{ _id := "c1", name := "trio", isGroup := true, members := ["u1", "u2", "u3"] }]) := by
  have h1 := C10_addMembers_set_semantics
    [{ _id := "c1", name := "trio", isGroup := true, members := ["u1", "u2", "u3"] }]
    "u1" "c1" ["u2", "u4"]
    { _id := "c1", name := "trio", isGroup := true, members := ["u1", "u2", "u3"] }
    (by decide) rfl rfl (by decide)
  have h2 := C10_addMembers_set_semantics
    [{ _id := "c1", name := "trio", isGroup := true, members := ["u1", "u2", "u3"] }]
    "u1" "c1" ["u2"]
    { _id := "c1", name := "trio", isGroup := true, members := ["u1", "u2", "u3"] }
    (by decide) rfl rfl (by decide)
  constructor
  · have := h1.1
    simpa [addToSet, updateChat] using this
  · have := h2.1
    simpa [addToSet, updateChat] using this

end Muse
